import Mathlib

/-!
Verification of the RemoteOK job-scraper core (src/src/main.py) against its
natural-language specification.

The Python source is shallowly embedded below.  Pure helpers become Lean
functions; the `main` run loop becomes a fuel-indexed state-transition
function over an explicit `RunState`.  BeautifulSoup DOM access is embedded
at the row level: a `Row` records exactly the attribute/selector results the
source inspects (one field per selector-chain outcome), and `parse_jobs`
becomes a function over the list of selected job rows.  Python truthiness of
optional strings and the `or` chaining idiom are modelled explicitly
(`pyTruthyS`, `pyOrS`).
-/

/-- Bool test: does the character list start with the given pattern list. -/
def listHasPfx : List Char → List Char → Bool
  | _, [] => true
  | [], _ :: _ => false
  | a :: as, b :: bs => a == b && listHasPfx as bs

/-- Bool test: does the pattern occur contiguously anywhere in the list.
Models the Python `in` operator on strings. -/
def listHasSub : List Char → List Char → Bool
  | [], pat => pat.isEmpty
  | x :: rest, pat => listHasPfx (x :: rest) pat || listHasSub rest pat

/-- Python `pat in hay` for strings. -/
def strContains (hay pat : String) : Bool :=
  listHasSub hay.data pat.data

/-- Python `s.lower()`: character-wise lowering. -/
def strLower (s : String) : String :=
  String.mk (s.data.map Char.toLower)

/-- Python `s.startswith(pre)`. -/
def strStarts (s pre : String) : Bool :=
  listHasPfx s.data pre.data

/-- Python truthiness of an optional string: `None` and the empty string are
falsy, every other string is truthy. -/
def pyTruthyS : Option String → Bool
  | none => false
  | some s => s != ""

/-- Python `a or b` over optional strings: returns `a` when truthy, else `b`
unchanged. -/
def pyOrS (a b : Option String) : Option String :=
  if pyTruthyS a then a else b

/-- The fixed listing root used by the scraper (REMOTEOK_URL in the source). -/
def REMOTEOK_URL : String := "https://remoteok.com/remote-jobs"

/-- The canonical Job record pushed by the scraper (the dict built in
`parse_jobs`, lines 253-280 of main.py). -/
structure Job where
  job_title : String
  company : String
  job_url : String
  location : String
  tags : List String
  logo : Option String
  date_posted : Option String
  description_html : String
  description_text : String
  source_url : String
  collected_at : String
  job_type : String
deriving DecidableEq

/-- One markup job row (`tr.job`), embedded at the level of the attribute and
selector lookups `parse_jobs` performs on it.  Each field records the result
of the corresponding BeautifulSoup query on the row:
`titleText` is the stripped text of the first element matched by the title
selector chain (`none` when no selector matched, `some ""` when an element
matched but its text strips to empty), and likewise for `companyText` and
`locationText`; `hrefs` lists the `href` attribute of every anchor in the
row (the empty string standing for a missing attribute, as in the source's
`link.get("href", "")`); `tagTexts` lists the stripped texts of the matched
tag elements; the logo / time / description fields carry a found-flag plus
the attributes the source reads from the found element. -/
structure Row where
  classes : List String
  dataId : Option String
  dataSlug : Option String
  idAttr : Option String
  hrefs : List String
  onclick : String
  titleText : Option String
  companyText : Option String
  locationText : Option String
  tagTexts : List String
  logoFound : Bool
  logoDataSrc : Option String
  logoSrc : Option String
  timeFound : Bool
  timeDatetime : Option String
  timeText : String
  descrFound : Bool
  descrHtml : String
  descrText : String
deriving DecidableEq

/-- Absolute-URL completion used by `parse_jobs`:
`href if href.startswith("http") else "https://remoteok.com" + href`. -/
def mkAbs (u : String) : String :=
  if strStarts u "http" then u else "https://remoteok.com" ++ u

/-- Approach 1 of URL resolution: first anchor whose href is non-empty and
mentions "/remote-jobs/" or "/l/". -/
def firstGoodHref : List String → Option String
  | [] => none
  | h :: rest =>
    if h != "" && (strContains h "/remote-jobs/" || strContains h "/l/") then
      some (mkAbs h)
    else firstGoodHref rest

/-- Is the character one of the two quote characters of the source's regex
character class (double quote, code 34, or single quote, code 39). -/
def isQuoteChar (c : Char) : Bool :=
  c == Char.ofNat 34 || c == Char.ofNat 39

/-- Split a character list at quote characters (the quotes are dropped). -/
def quoteSegs : List Char → List (List Char)
  | [] => [[]]
  | c :: rest =>
    let segs := quoteSegs rest
    if isQuoteChar c then [] :: segs
    else
      match segs with
      | [] => [[c]]
      | s :: ss => (c :: s) :: ss

/-- First element of the list satisfying the predicate. -/
def firstSuch (p : List Char → Bool) : List (List Char) → Option (List Char)
  | [] => none
  | s :: ss => if p s then some s else firstSuch p ss

/-- The regex search of approach 3 in `parse_jobs`:
searches `onclick` for a quote, then a quote-free run containing
"remote-jobs", then a closing quote, returning the run (capture group 1) of
the leftmost such match. -/
def onclickUrlMatch (onclick : String) : Option String :=
  let segs := quoteSegs onclick.data
  let inner := (segs.drop 1).dropLast
  match firstSuch (fun s => listHasSub s "remote-jobs".data) inner with
  | none => none
  | some s => some (String.mk s)

/-- URL resolution for one markup row (lines 167-198 of main.py): anchor
hrefs first, then the data-id/data-slug/id chain composed into a canonical
path, then the onclick pattern match. -/
def resolveJobUrl (r : Row) : Option String :=
  let jobId := pyOrS (pyOrS r.dataId r.dataSlug) r.idAttr
  let u1 := firstGoodHref r.hrefs
  let u2 :=
    if !(pyTruthyS u1) && pyTruthyS jobId then
      some ("https://remoteok.com/remote-jobs/" ++ jobId.getD "")
    else u1
  if !(pyTruthyS u2) then
    if strContains r.onclick "location.href" || strContains r.onclick "window.open" then
      match onclickUrlMatch r.onclick with
      | some g => some (mkAbs g)
      | none => u2
    else u2
  else u2

/-- The scan over `tags` deriving the job type (lines 267-280 of main.py),
returning `none` when no tag fires a rule. -/
def jobTypeScan : List String → Option String
  | [] => none
  | t :: rest =>
    let tagLow := strLower t
    if strContains tagLow "full" || strContains tagLow "fulltime" then some "Full-time"
    else if strContains tagLow "part" || strContains tagLow "parttime" then some "Part-time"
    else if strContains tagLow "contract" then some "Contract"
    else jobTypeScan rest

/-- The derived job type: the scan result, defaulting to "Remote"
(`job["job_type"] = job_type or "Remote"`). -/
def jobTypeFromTags (tags : List String) : String :=
  (jobTypeScan tags).getD "Remote"

/-- The body of the per-row loop of `parse_jobs` (lines 151-283 of main.py):
skip ad/header rows, resolve a URL (skip when none), require a title element
(skip when none), then build the Job dict.  `now` stands for the
`datetime.utcnow().isoformat()` timestamp taken at collection time. -/
def parseRow (now : String) (r : Row) : Option Job :=
  if "ad" ∈ r.classes ∨ "header" ∈ r.classes then none
  else
    let u := resolveJobUrl r
    if !(pyTruthyS u) then none
    else
      match r.titleText with
      | none => none
      | some t =>
        let tags := r.tagTexts.filter (fun s => s != "")
        some
          { job_title := t
            company := r.companyText.getD "Unknown"
            job_url := u.getD ""
            location :=
              match r.locationText with
              | some s => if s != "" then s else "Worldwide"
              | none => "Worldwide"
            tags := tags
            logo := if r.logoFound then pyOrS r.logoDataSrc r.logoSrc else none
            date_posted := if r.timeFound then pyOrS r.timeDatetime (some r.timeText) else none
            description_html := if r.descrFound then r.descrHtml else ""
            description_text := if r.descrFound then r.descrText else ""
            source_url := REMOTEOK_URL
            collected_at := now
            job_type := jobTypeFromTags tags }

/-- `parse_jobs` over the selected job rows: each row yields at most one Job,
rows failing the gates are skipped silently. -/
def parseJobs (now : String) (rows : List Row) : List Job :=
  rows.filterMap (parseRow now)

/-! ## Dates and the filter engine -/

/-- Leap year rule of the Gregorian calendar. -/
def isLeapYear (y : Nat) : Bool :=
  (y % 4 == 0 && y % 100 != 0) || y % 400 == 0

/-- Length of a month in a given year. -/
def daysInMonth (y m : Nat) : Nat :=
  if m == 2 then (if isLeapYear y then 29 else 28)
  else if m == 4 || m == 6 || m == 9 || m == 11 then 30
  else 31

/-- Days in year `y` strictly before month `m`. -/
def daysBeforeMonth (y m : Nat) : Nat :=
  (List.range (m - 1)).foldl (fun acc i => acc + daysInMonth y (i + 1)) 0

/-- Proleptic-Gregorian day number of the civil date `y-m-d`. -/
def rataDie (y m d : Nat) : Nat :=
  365 * (y - 1) + (y - 1) / 4 - (y - 1) / 100 + (y - 1) / 400 + daysBeforeMonth y m + d

/-- Numeric value of a decimal digit character. -/
def digitVal (c : Char) : Nat := c.toNat - 48

/-- Models `datetime.fromisoformat` at day granularity, restricted to the
date-only form YYYY-MM-DD: a well-formed date string yields its day number,
anything else (including strings the library would reject) is unparseable and
yields `none`. -/
def parseIsoDate (s : String) : Option Nat :=
  match s.data with
  | [y1, y2, y3, y4, c1, m1, m2, c2, d1, d2] =>
    if y1.isDigit && y2.isDigit && y3.isDigit && y4.isDigit
        && m1.isDigit && m2.isDigit && d1.isDigit && d2.isDigit
        && c1 == '-' && c2 == '-' then
      let y := ((digitVal y1 * 10 + digitVal y2) * 10 + digitVal y3) * 10 + digitVal y4
      let m := digitVal m1 * 10 + digitVal m2
      let d := digitVal d1 * 10 + digitVal d2
      if 1 ≤ m && m ≤ 12 && 1 ≤ d && d ≤ daysInMonth y m then some (rataDie y m d)
      else none
    else none
  | _ => none

/-- `DATE_WINDOWS.get(date_filter)` for DATE_WINDOWS =
{"today": 1, "week": 7, "month": 31} (line 49 of main.py); any other key,
including "all" and an absent value, yields `none`. -/
def dateWindowDays : Option String → Option Nat
  | some s =>
    if s == "today" then some 1
    else if s == "week" then some 7
    else if s == "month" then some 31
    else none
  | none => none

/-- The per-job predicate of `filter_jobs` (lines 316-343 of main.py):
keyword substring over the joined lowercased text, location substring over
the location, and the recency window over the parsed posting date.  `now` is
the run timestamp as a day number (`datetime.utcnow()` at day granularity);
the age test `(now - dt).days > days` becomes the integer comparison below. -/
def acceptsJob (now : Int) (keyword location dateFilter : Option String) (j : Job) : Bool :=
  let text := strLower (String.intercalate " "
    [j.job_title, j.company, j.location, String.intercalate " " j.tags,
      j.description_text])
  if pyTruthyS keyword && !(strContains text (strLower (keyword.getD ""))) then false
  else if pyTruthyS location
      && !(strContains (strLower j.location) (strLower (location.getD ""))) then false
  else
    match dateWindowDays dateFilter with
    | none => true
    | some days =>
      if days != 0 && pyTruthyS j.date_posted then
        match parseIsoDate (j.date_posted.getD "") with
        | some dt => if (days : Int) < now - (dt : Int) then false else true
        | none => true
      else true

/-- `filter_jobs`: keep, in order, the jobs the predicate accepts. -/
def filterJobs (now : Int) (jobs : List Job)
    (keyword location dateFilter : Option String) : List Job :=
  jobs.filter (acceptsJob now keyword location dateFilter)

/-! ## Pagination URL helper -/

/-- First value bound to a key in a parsed query (the result of `parse_qs`,
a mapping from keys to lists of values). -/
def getQ : List (String × List String) → String → Option (List String)
  | [], _ => none
  | (k, v) :: rest, key => if k == key then some v else getQ rest key

/-- Dict update `qs[k] = v`: replace the binding in place when the key is
present, append it otherwise (Python dicts preserve insertion order). -/
def setQ (qs : List (String × List String)) (k : String) (v : List String) :
    List (String × List String) :=
  if qs.any (fun p => p.1 == k) then
    qs.map (fun p => if p.1 == k then (k, v) else p)
  else qs ++ [(k, v)]

/-- Digit-list accumulator for decimal parsing. -/
def digitsVal : List Char → Nat → Nat
  | [], acc => acc
  | c :: rest, acc => digitsVal rest (acc * 10 + digitVal c)

/-- Models Python `int(s)` on the plain decimal-digit case; any other string
(for which `int` would raise) yields `none`. -/
def pyParseInt (s : String) : Option Nat :=
  if s != "" && s.data.all (fun c => c.isDigit) then some (digitsVal s.data 0)
  else none

/-- `next_page_url` (lines 346-351 of main.py) at the level of the parsed
query mapping: read `pg` (defaulting the current page to 1 when absent),
increment it, and write it back.  `none` models the ValueError `int` raises
on a non-numeric value. -/
def nextPageQuery (qs : List (String × List String)) :
    Option (List (String × List String)) :=
  let cur : Option Nat :=
    match getQ qs "pg" with
    | none => some 1
    | some vs => pyParseInt (vs.headD "")
  match cur with
  | none => none
  | some p => some (setQ qs "pg" [toString (p + 1)])

/-! ## The resilient fetcher -/

/-- One attempt's outcome at the transport level: a response with a status
code and body, or a raised transport-level exception. -/
inductive FetchResp where
  | ok (status : Nat) (body : String)
  | exn
deriving DecidableEq

/-- What `fetch_html` surfaces to its caller. -/
inductive FetchOutcome where
  | body (s : String)
  | errStatus (status : Nat)
  | errException
  | errExhausted
deriving DecidableEq

/-- The retry loop of `fetch_html` (lines 56-123 of main.py).  `responses`
gives the transport outcome of each attempt, `attempt` is the zero-based
loop index and `fuel` the number of loop iterations left (`retries - attempt`
at entry); running out of fuel is the fall-through
`raise RuntimeError(... after {retries} attempts)`.  403 and 429 always
retry (`continue`); another non-200 retries on intermediate attempts and
raises on the last; a 200 whose body is shorter than 1000 characters retries
on intermediate attempts, and on the last attempt falls through to
`return content`; an exception retries on intermediate attempts and
re-raises on the last. -/
def fetchLoop (responses : Nat → FetchResp) (retries : Nat) :
    Nat → Nat → FetchOutcome
  | _, 0 => .errExhausted
  | attempt, fuel + 1 =>
    match responses attempt with
    | .exn =>
      if attempt < retries - 1 then fetchLoop responses retries (attempt + 1) fuel
      else .errException
    | .ok status body =>
      if status == 403 then fetchLoop responses retries (attempt + 1) fuel
      else if status == 429 then fetchLoop responses retries (attempt + 1) fuel
      else if status != 200 then
        if attempt < retries - 1 then fetchLoop responses retries (attempt + 1) fuel
        else .errStatus status
      else if body.length < 1000 then
        if attempt < retries - 1 then fetchLoop responses retries (attempt + 1) fuel
        else .body body
      else .body body

/-- `fetch_html` itself: run the loop from attempt 0 with `retries`
iterations of fuel. -/
def fetchHtml (responses : Nat → FetchResp) (retries : Nat) : FetchOutcome :=
  fetchLoop responses retries 0 retries

/-! ## The run loop of `main` -/

/-- Configuration drawn from the actor input. -/
structure RunConfig where
  keyword : Option String
  location : Option String
  dateFilter : Option String
  maxJobs : Nat
  maxPages : Nat
deriving DecidableEq

/-- Mutable state of the run loop: the seen-set of emitted URLs, the emitted
count (`total_saved`), the shared consecutive-failure-or-empty counter
(`consecutive_empty`), the records pushed so far (`Actor.push_data`), and
the number of fetches issued. -/
structure RunState where
  seen : List String
  totalSaved : Nat
  consecutiveEmpty : Nat
  emitted : List Job
  pagesFetched : Nat
deriving DecidableEq

/-- State at the top of `main`'s loop. -/
def initRunState : RunState :=
  { seen := [], totalSaved := 0, consecutiveEmpty := 0, emitted := [], pagesFetched := 0 }

/-- The inner emission loop of `main` (lines 429-441): for each filtered job,
stop at the cap, silently drop URLs already seen, otherwise record the URL,
push the job and count it. -/
def emitLoop (maxJobs : Nat) (s : RunState) : List Job → RunState
  | [] => s
  | j :: rest =>
    if maxJobs ≤ s.totalSaved then s
    else if j.job_url ∈ s.seen then emitLoop maxJobs s rest
    else
      emitLoop maxJobs
        { s with
          seen := j.job_url :: s.seen
          totalSaved := s.totalSaved + 1
          emitted := s.emitted ++ [j] } rest

/-- Result of fetching-and-parsing one page in the run loop: a fetch failure
(the `except` branch around `fetch_html`), or the parsed job list (possibly
empty). -/
inductive PageOutcome where
  | fetchFail
  | fetched (jobs : List Job)
deriving DecidableEq

/-- The page loop of `main` (lines 391-449), with `pages` giving the
fetch-and-parse outcome of each loop iteration (indexed by the 1-based loop
variable `page`) and `fuel` the iterations left of
`for page in range(1, max_pages + 1)`.  A fetch failure or a zero-row page
increments the shared `consecutive_empty` counter and stops the run when it
reaches 3; a page with rows resets the counter, filters, runs the emission
loop, and stops when the cap is reached. -/
def runGo (cfg : RunConfig) (now : Int) (pages : Nat → PageOutcome) :
    Nat → Nat → RunState → RunState
  | _, 0, s => s
  | page, fuel + 1, s =>
    let s1 := { s with pagesFetched := s.pagesFetched + 1 }
    match pages page with
    | .fetchFail =>
      let s2 := { s1 with consecutiveEmpty := s1.consecutiveEmpty + 1 }
      if 3 ≤ s2.consecutiveEmpty then s2
      else runGo cfg now pages (page + 1) fuel s2
    | .fetched jobs =>
      if jobs.isEmpty then
        let s2 := { s1 with consecutiveEmpty := s1.consecutiveEmpty + 1 }
        if 3 ≤ s2.consecutiveEmpty then s2
        else runGo cfg now pages (page + 1) fuel s2
      else
        let s2 := { s1 with consecutiveEmpty := 0 }
        let filtered := filterJobs now jobs cfg.keyword cfg.location cfg.dateFilter
        let s3 := emitLoop cfg.maxJobs s2 filtered
        if cfg.maxJobs ≤ s3.totalSaved then s3
        else runGo cfg now pages (page + 1) fuel s3

/-- A whole run: pages 1 .. maxPages from the initial state. -/
def runPages (cfg : RunConfig) (now : Int) (pages : Nat → PageOutcome) : RunState :=
  runGo cfg now pages 1 cfg.maxPages initRunState

/-- Keep-first deduplication by `job_url` relative to an initial seen-set:
the reference the emission loop is compared against. -/
def dedupKeepFirst (seenUrls : List String) : List Job → List Job
  | [] => []
  | j :: rest =>
    if j.job_url ∈ seenUrls then dedupKeepFirst seenUrls rest
    else j :: dedupKeepFirst (j.job_url :: seenUrls) rest

/-! ## Salary formatting (JSON-API normalizer) -/

/-- Split a digit list (least-significant first) into groups of three. -/
def chunk3 : List Char → List (List Char)
  | [] => []
  | [a] => [[a]]
  | [a, b] => [[a, b]]
  | a :: b :: c :: rest => [a, b, c] :: chunk3 rest

/-- Thousands-separator rendering of a natural number, as Python's
format spec `{:,}` produces. -/
def withCommas (n : Nat) : String :=
  String.mk ((List.intercalate [','] (chunk3 (toString n).data.reverse)).reverse)

/-- Modelled from the spec: the repository file holding the JSON-API
normalizer, whose salary derivation from the optional numeric bounds
`salary_min` and `salary_max` sections 4.4 and 8 of the spec describe, is
not under src (only the markup-path main.py is); this follows the spec's
four cases verbatim. -/
def formatSalary (smin smax : Option Nat) : Option String :=
  match smin, smax with
  | none, none => none
  | some lo, none => some ("$" ++ withCommas lo ++ "+")
  | none, some hi => some ("Up to $" ++ withCommas hi)
  | some lo, some hi => some ("$" ++ withCommas lo ++ " - $" ++ withCommas hi)

/-! ## Concrete fixtures used by witnesses and counterexamples -/

/-- A minimal Job with the given URL. -/
def mkJob (u : String) : Job :=
  { job_title := "t", company := "c", job_url := u, location := "w", tags := [],
    logo := none, date_posted := none, description_html := "", description_text := "",
    source_url := REMOTEOK_URL, collected_at := "ts", job_type := "Remote" }

/-- Five filter-passing jobs with pairwise distinct URLs. -/
def fiveJobs : List Job :=
  [mkJob "u1", mkJob "u2", mkJob "u3", mkJob "u4", mkJob "u5"]

/-- Configuration with a cap of 2 records over up to 10 pages. -/
def cfgCap : RunConfig :=
  { keyword := none, location := none, dateFilter := some "all", maxJobs := 2, maxPages := 10 }

/-- Configuration with a large cap over up to 10 pages. -/
def cfgStreak : RunConfig :=
  { keyword := none, location := none, dateFilter := some "all", maxJobs := 100, maxPages := 10 }

/-- Page outcomes mixing fetch failures and an empty page: pages 1 and 3 fail
to fetch, page 2 parses to zero rows, and every page from 4 on has one job. -/
def pagesMixed : Nat → PageOutcome := fun n =>
  if n == 1 then .fetchFail
  else if n == 2 then .fetched []
  else if n == 3 then .fetchFail
  else .fetched [mkJob "a"]

/-- A markup row carrying a data-id and a matched (empty-text) title element
but no company element at all. -/
def rowNoCompany : Row :=
  { classes := [], dataId := some "123", dataSlug := none, idAttr := none,
    hrefs := [], onclick := "", titleText := some "", companyText := none,
    locationText := none, tagTexts := [], logoFound := false, logoDataSrc := none,
    logoSrc := none, timeFound := false, timeDatetime := none, timeText := "",
    descrFound := false, descrHtml := "", descrText := "" }

/-! ## C4: job type derivation -/

/-- The scan yields nothing or one of the three matched labels. -/
theorem jobTypeScan_cases (tags : List String) :
    jobTypeScan tags = none ∨ jobTypeScan tags = some "Full-time"
      ∨ jobTypeScan tags = some "Part-time" ∨ jobTypeScan tags = some "Contract" := by
  induction tags with
  | nil => left; rfl
  | cons t rest ih =>
    simp only [jobTypeScan]
    split
    · right; left; rfl
    · split
      · right; right; left; rfl
      · split
        · right; right; right; rfl
        · exact ih

/-- C4: the job_type derivation is total and deterministic: it always
returns one of Full-time, Part-time, Contract or Remote; the empty tag list
yields Remote; the head tag is tested case-insensitively for "full", then
"part", then "contract", the first firing rule ends the scan, and a head tag
firing no rule defers to the rest of the list (hence a wholly non-matching
list yields Remote). -/
theorem jobType_total_first_match :
    (∀ tags, jobTypeFromTags tags = "Full-time" ∨ jobTypeFromTags tags = "Part-time"
      ∨ jobTypeFromTags tags = "Contract" ∨ jobTypeFromTags tags = "Remote")
    ∧ jobTypeFromTags [] = "Remote"
    ∧ (∀ t rest,
        (strContains (strLower t) "full" || strContains (strLower t) "fulltime") = true →
        jobTypeFromTags (t :: rest) = "Full-time")
    ∧ (∀ t rest,
        (strContains (strLower t) "full" || strContains (strLower t) "fulltime") = false →
        (strContains (strLower t) "part" || strContains (strLower t) "parttime") = true →
        jobTypeFromTags (t :: rest) = "Part-time")
    ∧ (∀ t rest,
        (strContains (strLower t) "full" || strContains (strLower t) "fulltime") = false →
        (strContains (strLower t) "part" || strContains (strLower t) "parttime") = false →
        strContains (strLower t) "contract" = true →
        jobTypeFromTags (t :: rest) = "Contract")
    ∧ (∀ t rest,
        (strContains (strLower t) "full" || strContains (strLower t) "fulltime") = false →
        (strContains (strLower t) "part" || strContains (strLower t) "parttime") = false →
        strContains (strLower t) "contract" = false →
        jobTypeFromTags (t :: rest) = jobTypeFromTags rest) := by
  refine ⟨?_, rfl, ?_, ?_, ?_, ?_⟩
  · intro tags
    rcases jobTypeScan_cases tags with h | h | h | h <;>
      simp [jobTypeFromTags, h]
  · intro t rest h
    simp [jobTypeFromTags, jobTypeScan, h]
  · intro t rest h1 h2
    simp [jobTypeFromTags, jobTypeScan, h1, h2]
  · intro t rest h1 h2 h3
    simp [jobTypeFromTags, jobTypeScan, h1, h2, h3]
  · intro t rest h1 h2 h3
    simp [jobTypeFromTags, jobTypeScan, h1, h2, h3]

/-- Witness for C4 at concrete tags: the first matching tag wins and the
scan stops there, so a list whose head matches "part" yields Part-time even
when a later tag matches "full". -/
theorem jobType_witness :
    jobTypeFromTags ["Part-Time", "Full-Time"] = "Part-time"
    ∧ jobTypeFromTags ["Senior", "Full-Time"] = "Full-time"
    ∧ jobTypeFromTags ["dev", "contractor"] = "Contract" := by
  refine ⟨jobType_total_first_match.2.2.2.1 "Part-Time" ["Full-Time"]
      (by decide) (by decide), ?_, ?_⟩
  · have h := jobType_total_first_match.2.2.2.2.2 "Senior" ["Full-Time"]
      (by decide) (by decide) (by decide)
    rw [h]
    exact jobType_total_first_match.2.2.1 "Full-Time" [] (by decide)
  · decide

/-! ## C9: salary formatting -/

/-- C9: salary derivation from the optional bounds, with the four cases of
the spec and the concrete thousands-separated renderings. -/
theorem salary_formatting :
    (∀ lo hi : Nat,
      formatSalary none none = none
      ∧ formatSalary (some lo) none = some ("$" ++ withCommas lo ++ "+")
      ∧ formatSalary none (some hi) = some ("Up to $" ++ withCommas hi)
      ∧ formatSalary (some lo) (some hi) =
          some ("$" ++ withCommas lo ++ " - $" ++ withCommas hi))
    ∧ formatSalary (some 50000) none = some "$50,000+"
    ∧ formatSalary none (some 90000) = some "Up to $90,000"
    ∧ formatSalary (some 50000) (some 90000) = some "$50,000 - $90,000" := by
  exact ⟨fun lo hi => ⟨rfl, rfl, rfl, rfl⟩, by decide, by decide, by decide⟩

/-! ## C8: next_page_url -/

/-- Reading back the key just written by `setQ`. -/
theorem getQ_setQ (k : String) (v : List String) :
    ∀ qs : List (String × List String), getQ (setQ qs k v) k = some v := by
  intro qs
  induction qs with
  | nil => simp [setQ, getQ]
  | cons p rest ih =>
    by_cases hp : p.1 = k
    · have hany : ((p :: rest).any fun q => q.1 == k) = true := by
        simp [hp]
      simp [setQ, getQ, hany, hp]
    · have hstep : setQ (p :: rest) k v = p :: setQ rest k v := by
        by_cases ha : (rest.any fun q => q.1 == k) = true
        · simp [setQ, ha, hp]
        · simp [setQ, ha, hp]
      rw [hstep]
      simpa [getQ, hp] using ih

/-- C8: `next_page_url` increments the `pg` query parameter; with no `pg`
parameter the current page defaults to 1 and the result carries `pg=2`, and
with a numeric `pg` value rendering `n` the result carries `pg=n+1`,
whatever the other parameters. -/
theorem next_page_increments_pg :
    (∀ qs, getQ qs "pg" = none →
      nextPageQuery qs = some (setQ qs "pg" ["2"])
      ∧ getQ (setQ qs "pg" ["2"]) "pg" = some ["2"])
    ∧ (∀ qs v vs n, getQ qs "pg" = some (v :: vs) → pyParseInt v = some n →
      nextPageQuery qs = some (setQ qs "pg" [toString (n + 1)])
      ∧ getQ (setQ qs "pg" [toString (n + 1)]) "pg" = some [toString (n + 1)]) := by
  constructor
  · intro qs h
    constructor
    · simp only [nextPageQuery, h]
      rfl
    · exact getQ_setQ "pg" ["2"] qs
  · intro qs v vs n h hv
    constructor
    · simp only [nextPageQuery, h, List.headD_cons, hv]
    · exact getQ_setQ "pg" [toString (n + 1)] qs

/-- Witness for C8 at the spec's two concrete inputs: a query with `pg=5`
maps to `pg=6`, and a query with no `pg` maps to `pg=2`. -/
theorem next_page_witness :
    nextPageQuery [("pg", ["5"])] = some [("pg", ["6"])]
    ∧ nextPageQuery [("tags", ["dev"])] = some [("tags", ["dev"]), ("pg", ["2"])] := by
  constructor
  · rw [(next_page_increments_pg.2 [("pg", ["5"])] "5" [] 5 rfl (by decide)).1]
    decide
  · rw [(next_page_increments_pg.1 [("tags", ["dev"])] rfl).1]
    decide

/-! ## C6: short-body handling in fetch_html -/

/-- C6 counterexample: when every attempt of the budget returns a 200 with a
body below the 1000-character threshold, `fetch_html` returns the short body
of the final attempt instead of raising. -/
theorem short_body_returned_counterexample :
    fetchHtml (fun _ => .ok 200 "tiny") 3 = .body "tiny"
    ∧ "tiny".length < 1000 := by
  exact ⟨rfl, by decide⟩

/-- C6 (amended): a 200 response with a body below the threshold is a soft
failure retried while attempts remain, but on the final attempt the short
body is returned to the caller rather than raised. -/
theorem short_body_retry_then_return :
    (∀ (responses : Nat → FetchResp) (retries attempt fuel : Nat) (b : String),
      responses attempt = .ok 200 b → b.length < 1000 → attempt < retries - 1 →
      fetchLoop responses retries attempt (fuel + 1) =
        fetchLoop responses retries (attempt + 1) fuel)
    ∧ (∀ (responses : Nat → FetchResp) (retries attempt fuel : Nat) (b : String),
      responses attempt = .ok 200 b → b.length < 1000 → ¬ attempt < retries - 1 →
      fetchLoop responses retries attempt (fuel + 1) = .body b) := by
  constructor
  · intro responses retries attempt fuel b h hlen hatt
    simp [fetchLoop, h, hlen, hatt]
  · intro responses retries attempt fuel b h hlen hatt
    simp [fetchLoop, h, hlen, hatt]

/-- Witness for C6's amended statement on a concrete all-short run with the
default budget of 3: attempt 0 retries, and the final attempt returns the
short body. -/
theorem short_body_witness :
    fetchLoop (fun _ => .ok 200 "tiny") 3 0 3 = fetchLoop (fun _ => .ok 200 "tiny") 3 1 2
    ∧ fetchLoop (fun _ => .ok 200 "tiny") 3 2 1 = .body "tiny" :=
  ⟨short_body_retry_then_return.1 (fun _ => .ok 200 "tiny") 3 0 2 "tiny" rfl (by decide)
      (by decide),
    short_body_retry_then_return.2 (fun _ => .ok 200 "tiny") 3 2 0 "tiny" rfl (by decide)
      (by decide)⟩

/-! ## C1: which markup rows become Jobs -/

/-- C1 (amended): a markup row produces a Job exactly when it is not an
ad/header row, a job URL resolves to a truthy value, and a title element was
found; the title text may be empty and the company may be missing entirely
(it then defaults to "Unknown"), so neither disqualifies the row. -/
theorem parse_row_gate :
    (∀ now r, (parseRow now r).isSome = true ↔
      (¬("ad" ∈ r.classes ∨ "header" ∈ r.classes)
        ∧ pyTruthyS (resolveJobUrl r) = true ∧ r.titleText.isSome = true))
    ∧ (∀ now r j, parseRow now r = some j → r.companyText = none →
        j.company = "Unknown") := by
  constructor
  · intro now r
    unfold parseRow
    split
    · rename_i hskip
      simp [hskip]
    · rename_i hskip
      cases hu : pyTruthyS (resolveJobUrl r) with
      | false => simp [hu, hskip]
      | true =>
        cases ht : r.titleText with
        | none => simp [hu, ht, hskip]
        | some t => simp [hu, ht, hskip]
  · intro now r j h hc
    unfold parseRow at h
    by_cases hskip : "ad" ∈ r.classes ∨ "header" ∈ r.classes
    · rw [if_pos hskip] at h
      exact absurd h (by simp)
    · rw [if_neg hskip] at h
      cases hu : pyTruthyS (resolveJobUrl r) with
      | false =>
        simp only [hu, Bool.not_false, if_true] at h
        exact absurd h (by simp)
      | true =>
        simp only [hu, Bool.not_true, Bool.false_eq_true, if_false] at h
        cases ht : r.titleText with
        | none =>
          rw [ht] at h
          exact absurd h (by simp)
        | some t =>
          rw [ht] at h
          rw [Option.some_inj] at h
          subst h
          simp [hc]

/-- The Job that `parse_jobs` builds from `rowNoCompany`. -/
def jobNoCompany : Job :=
  { job_title := "", company := "Unknown",
    job_url := "https://remoteok.com/remote-jobs/123", location := "Worldwide",
    tags := [], logo := none, date_posted := none, description_html := "",
    description_text := "", source_url := REMOTEOK_URL, collected_at := "t0",
    job_type := "Remote" }

/-- C1 counterexample: a row with no company element and an empty-text title
element, but with a data-id, still becomes a Job (with company "Unknown" and
an empty title), contradicting the claim that absence of company or an empty
title disqualifies the row. -/
theorem missing_company_still_job :
    rowNoCompany.companyText = none
    ∧ rowNoCompany.titleText = some ""
    ∧ parseJobs "t0" [rowNoCompany] = [jobNoCompany]
    ∧ jobNoCompany.company = "Unknown"
    ∧ jobNoCompany.job_title = "" := by
  refine ⟨rfl, rfl, ?_, rfl, rfl⟩
  decide

/-- Witness for C1's amended statement at a concrete row: the gate holds for
the fixture row, so parsing yields a Job, and its company defaults to
"Unknown". -/
theorem parse_row_gate_witness :
    (parseRow "t0" rowNoCompany).isSome = true
    ∧ jobNoCompany.company = "Unknown" :=
  ⟨(parse_row_gate.1 "t0" rowNoCompany).mpr ⟨by decide, by decide, by decide⟩,
    parse_row_gate.2 "t0" rowNoCompany jobNoCompany (by decide) rfl⟩

/-! ## C5: the recency filter -/

/-- C5: with no keyword or location filter and a symbolic window of `d` days,
the filter rejects a job exactly when its posting date is present, parses,
and is more than `d` days older than the run time; jobs with an absent or
unparseable date are accepted (fail-open). -/
theorem recency_rejects_iff (now : Int) (j : Job) (w : String) (d : Nat)
    (hw : dateWindowDays (some w) = some d) :
    acceptsJob now none none (some w) j = false ↔
      ∃ s dt, j.date_posted = some s ∧ parseIsoDate s = some dt
        ∧ (d : Int) < now - (dt : Int) := by
  have hd0 : d ≠ 0 := by
    simp only [dateWindowDays] at hw
    split at hw
    · injection hw with h2; omega
    · split at hw
      · injection hw with h2; omega
      · split at hw
        · injection hw with h2; omega
        · exact Option.noConfusion hw
  have hd : (d != 0) = true := by simpa using hd0
  cases hdp : j.date_posted with
  | none =>
    simp [acceptsJob, hw, pyTruthyS, hd, hdp]
  | some s =>
    by_cases hs : s = ""
    · subst hs
      have hpe : parseIsoDate "" = none := rfl
      simp [acceptsJob, hw, pyTruthyS, hd, hdp, hpe]
    · cases hp : parseIsoDate s with
      | none => simp [acceptsJob, hw, pyTruthyS, hd, hdp, hs, hp]
      | some dt =>
        by_cases hlt : (d : Int) < now - (dt : Int)
        · simp [acceptsJob, hw, pyTruthyS, hd, hdp, hs, hp, hlt]
        · simp [acceptsJob, hw, pyTruthyS, hd, hdp, hs, hp, hlt]

/-- Witness for C5 at window "week": a job dated 10 days before run time is
rejected, one dated 3 days before is accepted, and one with an unparseable
date string is accepted. -/
theorem recency_witness :
    acceptsJob ((rataDie 2024 1 1 : Int) + 10) none none (some "week")
      { mkJob "u" with date_posted := some "2024-01-01" } = false
    ∧ acceptsJob ((rataDie 2024 1 1 : Int) + 3) none none (some "week")
      { mkJob "u" with date_posted := some "2024-01-01" } = true
    ∧ acceptsJob ((rataDie 2024 1 1 : Int) + 10) none none (some "week")
      { mkJob "u" with date_posted := some "not a date" } = true := by
  refine ⟨?_, by decide, by decide⟩
  exact (recency_rejects_iff ((rataDie 2024 1 1 : Int) + 10)
      { mkJob "u" with date_posted := some "2024-01-01" } "week" 7 rfl).mpr
    ⟨"2024-01-01", rataDie 2024 1 1, rfl, by decide, by omega⟩

/-! ## C10: filter_jobs with no filters is the identity -/

/-- With no keyword, no location and no recognized window, every job is
accepted. -/
theorem acceptsJob_no_filters (now : Int) (df : Option String)
    (hdf : dateWindowDays df = none) (j : Job) :
    acceptsJob now none none df j = true := by
  unfold acceptsJob
  simp [pyTruthyS, hdf]

/-- C10: `filter_jobs` with keyword and location absent and the date filter
unset or "all" returns its input list unchanged: every record, unmodified,
in the same order. -/
theorem filter_no_filters_identity (now : Int) (jobs : List Job)
    (df : Option String) (hdf : df = none ∨ df = some "all") :
    filterJobs now jobs none none df = jobs := by
  have hw : dateWindowDays df = none := by
    rcases hdf with h | h <;> subst h <;> rfl
  unfold filterJobs
  induction jobs with
  | nil => rfl
  | cons j rest ih =>
    rw [List.filter_cons, acceptsJob_no_filters now df hw j]
    simpa using ih

/-- Witness for C10 on a concrete list, with the date filter "all". -/
theorem filter_no_filters_witness :
    filterJobs 0 fiveJobs none none (some "all") = fiveJobs :=
  filter_no_filters_identity 0 fiveJobs (some "all") (Or.inr rfl)

/-! ## C2: dedup by job_url in the emission sink -/

/-- Generalized emission equation below the cap: with room for the whole
list, the emission loop appends exactly the keep-first deduplication of the
input relative to the current seen-set. -/
theorem emitLoop_emitted_below_cap (maxJobs : Nat) :
    ∀ (jobs : List Job) (s : RunState), s.totalSaved + jobs.length ≤ maxJobs →
      (emitLoop maxJobs s jobs).emitted = s.emitted ++ dedupKeepFirst s.seen jobs := by
  intro jobs
  induction jobs with
  | nil =>
    intro s h
    show s.emitted = s.emitted ++ dedupKeepFirst s.seen []
    have hnil : dedupKeepFirst s.seen [] = [] := rfl
    rw [hnil, List.append_nil]
  | cons j rest ih =>
    intro s h
    have hlen : s.totalSaved + rest.length + 1 ≤ maxJobs := by
      rw [List.length_cons] at h
      omega
    have hcap : ¬ maxJobs ≤ s.totalSaved := by omega
    unfold emitLoop dedupKeepFirst
    rw [if_neg hcap]
    by_cases hseen : j.job_url ∈ s.seen
    · rw [if_pos hseen, if_pos hseen]
      exact ih s (by omega)
    · rw [if_neg hseen, if_neg hseen]
      rw [ih _ (by show s.totalSaved + 1 + rest.length ≤ maxJobs; omega)]
      simp

/-- The emission loop preserves the invariant that every emitted URL is in
the seen-set and no URL is emitted twice. -/
theorem emitLoop_urls_nodup (maxJobs : Nat) :
    ∀ (jobs : List Job) (s : RunState),
      (s.emitted.map Job.job_url).Nodup →
      (∀ u ∈ s.emitted.map Job.job_url, u ∈ s.seen) →
      ((emitLoop maxJobs s jobs).emitted.map Job.job_url).Nodup := by
  intro jobs
  induction jobs with
  | nil =>
    intro s h1 _
    simpa [emitLoop] using h1
  | cons j rest ih =>
    intro s h1 h2
    unfold emitLoop
    split
    · exact h1
    · split
      · exact ih s h1 h2
      · rename_i hcap hseen
        apply ih
        · simp only [List.map_append, List.map_cons, List.map_nil]
          rw [List.nodup_append]
          refine ⟨h1, List.nodup_singleton _, ?_⟩
          intro u hu hv
          simp only [List.mem_singleton] at hv
          subst hv
          exact hseen (h2 _ hu)
        · intro u hu
          simp only [List.map_append, List.map_cons, List.map_nil,
            List.mem_append, List.mem_singleton] at hu
          rcases hu with hu | hu
          · exact List.mem_cons_of_mem _ (h2 _ hu)
          · subst hu
            exact List.mem_cons_self _ _

/-- C2: the sink emits each distinct job_url at most once, and (whenever the
cap does not intervene) the emitted records are exactly the first occurrence
of each URL, every later job with an already-seen URL being dropped. -/
theorem dedup_url_first_only :
    (∀ (maxJobs : Nat) (jobs : List Job),
      ((emitLoop maxJobs initRunState jobs).emitted.map Job.job_url).Nodup)
    ∧ (∀ (maxJobs : Nat) (jobs : List Job), jobs.length ≤ maxJobs →
      (emitLoop maxJobs initRunState jobs).emitted = dedupKeepFirst [] jobs) := by
  constructor
  · intro maxJobs jobs
    exact emitLoop_urls_nodup maxJobs jobs initRunState (by simp [initRunState])
      (by simp [initRunState])
  · intro maxJobs jobs h
    have := emitLoop_emitted_below_cap maxJobs jobs initRunState
      (by simpa [initRunState] using h)
    simpa [initRunState] using this

/-- Witness for C2 on a concrete list with a repeated URL: only the first
job with URL "a" is emitted, the later duplicate is dropped. -/
theorem dedup_url_first_only_witness :
    (emitLoop 10 initRunState [mkJob "a", mkJob "b", mkJob "a"]).emitted =
      dedupKeepFirst [] [mkJob "a", mkJob "b", mkJob "a"]
    ∧ dedupKeepFirst [] [mkJob "a", mkJob "b", mkJob "a"] = [mkJob "a", mkJob "b"] :=
  ⟨dedup_url_first_only.2 10 [mkJob "a", mkJob "b", mkJob "a"] (by decide), by decide⟩

/-! ## C3: the maxJobs cap -/

/-- The emission loop never pushes the count above the cap. -/
theorem emitLoop_le_cap (maxJobs : Nat) :
    ∀ (jobs : List Job) (s : RunState), s.totalSaved ≤ maxJobs →
      (emitLoop maxJobs s jobs).totalSaved ≤ maxJobs := by
  intro jobs
  induction jobs with
  | nil => intro s h; exact h
  | cons j rest ih =>
    intro s h
    unfold emitLoop
    split
    · exact h
    · split
      · exact ih s h
      · rename_i hcap _
        exact ih _ (by simp; omega)

/-- At the cap, the emission loop is the identity: nothing further is
emitted. -/
theorem emitLoop_at_cap (maxJobs : Nat) (s : RunState) (jobs : List Job)
    (h : maxJobs ≤ s.totalSaved) : emitLoop maxJobs s jobs = s := by
  cases jobs with
  | nil => rfl
  | cons j rest => unfold emitLoop; rw [if_pos h]

/-- The emission loop keeps the emitted list in step with the counter. -/
theorem emitLoop_len_eq (maxJobs : Nat) :
    ∀ (jobs : List Job) (s : RunState), s.emitted.length = s.totalSaved →
      (emitLoop maxJobs s jobs).emitted.length = (emitLoop maxJobs s jobs).totalSaved := by
  intro jobs
  induction jobs with
  | nil => intro s h; exact h
  | cons j rest ih =>
    intro s h
    unfold emitLoop
    split
    · exact h
    · split
      · exact ih s h
      · exact ih _ (by simp [h])

/-- The page loop preserves both cap and length invariants. -/
theorem runGo_invariants (cfg : RunConfig) (now : Int) (pages : Nat → PageOutcome) :
    ∀ (fuel page : Nat) (s : RunState),
      s.totalSaved ≤ cfg.maxJobs → s.emitted.length = s.totalSaved →
      (runGo cfg now pages page fuel s).totalSaved ≤ cfg.maxJobs
      ∧ (runGo cfg now pages page fuel s).emitted.length =
          (runGo cfg now pages page fuel s).totalSaved := by
  intro fuel
  induction fuel with
  | zero => intro page s h1 h2; exact ⟨h1, h2⟩
  | succ fuel ih =>
    intro page s h1 h2
    cases hpg : pages page with
    | fetchFail =>
      simp only [runGo, hpg]
      split
      · exact ⟨h1, h2⟩
      · exact ih _ _ h1 h2
    | fetched jobs =>
      by_cases hempty : jobs.isEmpty
      · simp only [runGo, hpg, hempty, if_true]
        split
        · exact ⟨h1, h2⟩
        · exact ih _ _ h1 h2
      · simp only [runGo, hpg]
        rw [if_neg hempty]
        have hcap := emitLoop_le_cap cfg.maxJobs
          (filterJobs now jobs cfg.keyword cfg.location cfg.dateFilter)
          { s with pagesFetched := s.pagesFetched + 1, consecutiveEmpty := 0 } h1
        have hlen := emitLoop_len_eq cfg.maxJobs
          (filterJobs now jobs cfg.keyword cfg.location cfg.dateFilter)
          { s with pagesFetched := s.pagesFetched + 1, consecutiveEmpty := 0 } h2
        split
        · exact ⟨hcap, hlen⟩
        · exact ih _ _ hcap hlen

/-- C3: the emitted-record count never exceeds the cap — stepwise (the
emission loop preserves the bound, and once the cap is reached it emits
nothing at all) and for whole runs; concretely, with maxJobs=2 and five
qualifying (filtered, non-duplicate) rows available on every page of a
10-page budget, exactly 2 records are emitted and no fetch is issued after
the page on which the cap was reached. -/
theorem max_jobs_cap :
    (∀ (maxJobs : Nat) (s : RunState) (jobs : List Job), s.totalSaved ≤ maxJobs →
      (emitLoop maxJobs s jobs).totalSaved ≤ maxJobs)
    ∧ (∀ (maxJobs : Nat) (s : RunState) (jobs : List Job), maxJobs ≤ s.totalSaved →
      emitLoop maxJobs s jobs = s)
    ∧ (∀ (cfg : RunConfig) (now : Int) (pages : Nat → PageOutcome),
      (runPages cfg now pages).emitted.length ≤ cfg.maxJobs)
    ∧ (runPages cfgCap 0 (fun _ => .fetched fiveJobs)).emitted.length = 2
    ∧ (runPages cfgCap 0 (fun _ => .fetched fiveJobs)).pagesFetched = 1 := by
  refine ⟨?_, ?_, ?_, by decide, by decide⟩
  · intro maxJobs s jobs h
    exact emitLoop_le_cap maxJobs jobs s h
  · intro maxJobs s jobs h
    exact emitLoop_at_cap maxJobs s jobs h
  · intro cfg now pages
    have h := runGo_invariants cfg now pages cfg.maxPages 1 initRunState
      (by simp [initRunState]) (by simp [initRunState])
    calc (runPages cfg now pages).emitted.length
        = (runPages cfg now pages).totalSaved := h.2
      _ ≤ cfg.maxJobs := h.1

/-- Witness for C3's hypothesised parts at concrete inputs: the cap bound
and the at-cap identity, both at maxJobs=2 with the five-job fixture. -/
theorem max_jobs_cap_witness :
    (emitLoop 2 initRunState fiveJobs).totalSaved ≤ 2
    ∧ emitLoop 2 { initRunState with totalSaved := 2 } fiveJobs =
        { initRunState with totalSaved := 2 } :=
  ⟨max_jobs_cap.1 2 initRunState fiveJobs (by decide),
    max_jobs_cap.2.1 2 { initRunState with totalSaved := 2 } fiveJobs (by decide)⟩

/-! ## C7: pagination stop streaks -/

/-- C7 counterexample: with outcomes fail / empty / fail (neither 3
consecutive fetch failures nor 3 consecutive empty pages), the run still
stops after the third page — page 4, which carries a job, is never fetched
and nothing is emitted — because failures and empty pages share one
consecutive counter. -/
theorem mixed_streak_stops_run :
    pagesMixed 1 = .fetchFail ∧ pagesMixed 2 = .fetched [] ∧ pagesMixed 3 = .fetchFail
    ∧ pagesMixed 4 = .fetched [mkJob "a"]
    ∧ (runPages cfgStreak 0 pagesMixed).pagesFetched = 3
    ∧ (runPages cfgStreak 0 pagesMixed).emitted = [] := by
  refine ⟨rfl, rfl, rfl, rfl, ?_, ?_⟩ <;> decide

/-- C7 (amended): pagination keeps one shared consecutive-failure-or-empty
counter: a fetch failure or a zero-row page increments it and the run
continues while it stays below 3; a fetch failure or a zero-row page that
brings it to 3 stops the run at that page; and a page with at least one
parsed row resets the counter to zero before filtering and emission.  A
single empty page therefore never stops pagination by itself, but any mix of
failures and empty pages reaching 3 without an intervening non-empty page
does. -/
theorem shared_streak_counter :
    (∀ (cfg : RunConfig) (now : Int) (pages : Nat → PageOutcome)
        (page fuel : Nat) (s : RunState),
      pages page = .fetchFail → s.consecutiveEmpty + 1 < 3 →
      runGo cfg now pages page (fuel + 1) s =
        runGo cfg now pages (page + 1) fuel
          { s with pagesFetched := s.pagesFetched + 1,
                   consecutiveEmpty := s.consecutiveEmpty + 1 })
    ∧ (∀ (cfg : RunConfig) (now : Int) (pages : Nat → PageOutcome)
        (page fuel : Nat) (s : RunState),
      pages page = .fetched [] → s.consecutiveEmpty + 1 < 3 →
      runGo cfg now pages page (fuel + 1) s =
        runGo cfg now pages (page + 1) fuel
          { s with pagesFetched := s.pagesFetched + 1,
                   consecutiveEmpty := s.consecutiveEmpty + 1 })
    ∧ (∀ (cfg : RunConfig) (now : Int) (pages : Nat → PageOutcome)
        (page fuel : Nat) (s : RunState),
      pages page = .fetchFail → 3 ≤ s.consecutiveEmpty + 1 →
      runGo cfg now pages page (fuel + 1) s =
        { s with pagesFetched := s.pagesFetched + 1,
                 consecutiveEmpty := s.consecutiveEmpty + 1 })
    ∧ (∀ (cfg : RunConfig) (now : Int) (pages : Nat → PageOutcome)
        (page fuel : Nat) (s : RunState),
      pages page = .fetched [] → 3 ≤ s.consecutiveEmpty + 1 →
      runGo cfg now pages page (fuel + 1) s =
        { s with pagesFetched := s.pagesFetched + 1,
                 consecutiveEmpty := s.consecutiveEmpty + 1 })
    ∧ (∀ (cfg : RunConfig) (now : Int) (pages : Nat → PageOutcome)
        (page fuel : Nat) (s : RunState) (jobs : List Job),
      pages page = .fetched jobs → jobs ≠ [] →
      runGo cfg now pages page (fuel + 1) s =
        (let s3 := emitLoop cfg.maxJobs
            { s with pagesFetched := s.pagesFetched + 1, consecutiveEmpty := 0 }
            (filterJobs now jobs cfg.keyword cfg.location cfg.dateFilter)
         if cfg.maxJobs ≤ s3.totalSaved then s3
         else runGo cfg now pages (page + 1) fuel s3)) := by
  refine ⟨?_, ?_, ?_, ?_, ?_⟩
  · intro cfg now pages page fuel s hpg hlt
    simp only [runGo, hpg]
    rw [if_neg (by show ¬ 3 ≤ s.consecutiveEmpty + 1; omega)]
  · intro cfg now pages page fuel s hpg hlt
    simp only [runGo, hpg, List.isEmpty_nil, if_true]
    rw [if_neg (by show ¬ 3 ≤ s.consecutiveEmpty + 1; omega)]
  · intro cfg now pages page fuel s hpg hge
    simp only [runGo, hpg]
    rw [if_pos (by show 3 ≤ s.consecutiveEmpty + 1; omega)]
  · intro cfg now pages page fuel s hpg hge
    simp only [runGo, hpg, List.isEmpty_nil, if_true]
    rw [if_pos (by show 3 ≤ s.consecutiveEmpty + 1; omega)]
  · intro cfg now pages page fuel s jobs hpg hne
    have hempty : jobs.isEmpty = false := by
      cases jobs with
      | nil => exact absurd rfl hne
      | cons a rest => rfl
    simp only [runGo, hpg, hempty, Bool.false_eq_true, if_false]

/-- Witness for C7's amended statement at concrete inputs: with the mixed
fixture, page 1 (a failure at streak 0) continues to page 2 with the shared
counter at 1, and a failure arriving with the counter at 2 stops the run at
that page. -/
theorem shared_streak_witness :
    runGo cfgStreak 0 pagesMixed 1 10 initRunState =
      runGo cfgStreak 0 pagesMixed 2 9
        { initRunState with pagesFetched := initRunState.pagesFetched + 1,
                            consecutiveEmpty := initRunState.consecutiveEmpty + 1 }
    ∧ runGo cfgStreak 0 pagesMixed 3 8
        { seen := [], totalSaved := 0, consecutiveEmpty := 2, emitted := [], pagesFetched := 2 } =
      { seen := [], totalSaved := 0, consecutiveEmpty := 3, emitted := [], pagesFetched := 3 } :=
  ⟨shared_streak_counter.1 cfgStreak 0 pagesMixed 1 9 initRunState rfl (by decide),
    shared_streak_counter.2.2.1 cfgStreak 0 pagesMixed 3 7
      { seen := [], totalSaved := 0, consecutiveEmpty := 2, emitted := [], pagesFetched := 2 }
      rfl (by decide)⟩
